import Mathlib

/-!
Verification development for the fete-voisins-api repository.

The repository has two source files:
- `src/api.js` — a Cloudflare-worker-style edge proxy (`handleRequest`)
  enforcing a CORS origin allow-list, a payload-size guard, and
  content-type-aware body handling before forwarding to an upstream API;
- an unnamed browser client file — `FeteVoisinsApiClient`, managing a CSRF
  token (`refreshCsrfToken`, `makeRequest`), form validation
  (`validateFormData`) and submission with retry (`submitContribution`).

Both are shallowly embedded below.  JavaScript values flowing through JSON
bodies are modelled by the inductive type `Json`; the platform primitives
`JSON.parse` and `fetch` are oracles passed explicitly as function
arguments, so each embedded operation is a pure function of its inputs,
the oracles, and (for the client) an explicit state plus a script of
network responses consumed in order.  Network calls performed are
returned as an explicit trace, so call-count properties are statable.
-/

/-- Model of a JavaScript/JSON value as it appears in JSON bodies.
Numbers are modelled as integers (the repository only handles integer
counts). -/
inductive Json where
  | null
  | bool (b : Bool)
  | num (n : Int)
  | str (s : String)
  | arr (elems : List Json)
  | obj (fields : List (String × Json))

/-- JavaScript truthiness of a value (`if (v)`), as used by the client
code for field checks. -/
def Json.truthy : Json → Bool
  | .null => false
  | .bool b => b
  | .num n => n != 0
  | .str s => s != ""
  | .arr _ => true
  | .obj _ => true

/-- Property lookup `v[k]` on a JSON value: `some` when the key is present
on an object, `none` for an absent key or a non-object (JS `undefined`).
Objects are assumed duplicate-key free (JS object construction collapses
duplicates); the first binding is taken. -/
def Json.lookup (j : Json) (k : String) : Option Json :=
  match j with
  | .obj fs => (fs.find? (fun p => p.1 = k)).map (fun p => p.2)
  | _ => none

/-- Lookup that also applies the truthiness test, modelling the idiom
`if (v.field) ...`: returns the field value exactly when it is present
and truthy. -/
def Json.getTruthy (j : Json) (k : String) : Option Json :=
  match j.lookup k with
  | some v => if v.truthy then some v else none
  | none => none

/-- Is the value an object?  Property assignment only works on objects. -/
def Json.isObj : Json → Bool
  | .obj _ => true
  | _ => false

/-- Property assignment `o[k] = v` on an object: updates the binding in
place when the key exists, appends it otherwise (JS insertion-order
semantics).  On a non-object the assignment has no observable effect on
later JSON serialization, so the value is returned unchanged. -/
def Json.setField (j : Json) (k : String) (v : Json) : Json :=
  match j with
  | .obj fs =>
      if fs.any (fun p => p.1 = k) then
        .obj (fs.map (fun p => if p.1 = k then (k, v) else p))
      else
        .obj (fs ++ [(k, v)])
  | other => other

/-- JavaScript string coercion `String(v)` for the values the repository
manipulates.  Arrays and objects use the standard JS renderings; strings
containing no special characters are the only ones exercised by the
claims. -/
def jsString : Json → String
  | .str s => s
  | .num n => toString n
  | .bool true => "true"
  | .bool false => "false"
  | .null => "null"
  | .arr _ => ""
  | .obj _ => "[object Object]"

/-- Escape the characters of a string for JSON output.  Only the quote
and backslash are escaped; control characters do not occur in the
repository's strings. -/
def jsonEscapeChars : List Char → List Char
  | [] => []
  | c :: cs =>
      if c = '"' then '\\' :: '"' :: jsonEscapeChars cs
      else if c = '\\' then '\\' :: '\\' :: jsonEscapeChars cs
      else c :: jsonEscapeChars cs

/-- Escape a string for JSON output. -/
def jsonEscape (s : String) : String :=
  String.mk (jsonEscapeChars s.toList)

mutual

/-- Model of `JSON.stringify` on the fragment of values the repository
produces. -/
def Json.stringify : Json → String
  | .null => "null"
  | .bool true => "true"
  | .bool false => "false"
  | .num n => toString n
  | .str s => "\"" ++ jsonEscape s ++ "\""
  | .arr xs => "[" ++ String.intercalate "," (stringifyList xs) ++ "]"
  | .obj fs => "\x7b" ++ String.intercalate "," (stringifyFields fs) ++ "\x7d"

/-- Serialize the elements of a JSON array. -/
def stringifyList : List Json → List String
  | [] => []
  | x :: xs => Json.stringify x :: stringifyList xs

/-- Serialize the fields of a JSON object. -/
def stringifyFields : List (String × Json) → List String
  | [] => []
  | (k, v) :: fs => ("\"" ++ jsonEscape k ++ "\":" ++ Json.stringify v) :: stringifyFields fs

end

/-- Whitespace characters for the purposes of JS `parseInt` skipping and
the `\s` regex class (the repository's inputs only contain these). -/
def isWs (c : Char) : Bool :=
  c = ' ' || c = '\t' || c = '\n' || c = '\r'

/-- Model of JavaScript `parseInt(s)` (radix 10): skip leading whitespace,
read an optional sign, then the longest digit prefix; no digits gives
`NaN`, modelled as `none`.  The `0x` hexadecimal prefix form of `parseInt`
is not modelled (the repository parses decimal header values and decimal
form fields). -/
def parseIntJS (s : String) : Option Int :=
  let cs := s.toList.dropWhile isWs
  let signAndRest : Int × List Char :=
    match cs with
    | '+' :: t => (1, t)
    | '-' :: t => (-1, t)
    | t => (1, t)
  let digits := signAndRest.2.takeWhile Char.isDigit
  if digits.isEmpty then none
  else some (signAndRest.1 * (digits.foldl (fun acc c => acc * 10 + (c.toNat - '0'.toNat)) 0 : Nat))

/-- Does the pattern occur as a contiguous run starting at some position
of the character list? -/
def charsOccur (pat : List Char) : List Char → Bool
  | [] => pat.isEmpty
  | c :: cs => pat.isPrefixOf (c :: cs) || charsOccur pat cs

/-- Model of JavaScript `String.prototype.includes(pat)`: the pattern
occurs as a substring. -/
def strIncludes (s pat : String) : Bool :=
  charsOccur pat.toList s.toList

/-- Model of `String.prototype.trim()`: strip leading and trailing
whitespace. -/
def jsTrim (s : String) : String :=
  String.mk (((s.toList.dropWhile isWs).reverse.dropWhile isWs).reverse)

/-- Model of the JS idiom `x || d` on strings: `d` when `x` is falsy
(empty), `x` otherwise. -/
def orDefault (x d : String) : String :=
  if x = "" then d else x

/-- A `JSON.parse` oracle: the platform JSON parser, abstracted as a
function from raw text to `some` parsed value or `none` (a thrown
`SyntaxError`). -/
abbrev JsonParse := String → Option Json

/-- A lookup-table `JSON.parse` oracle for concrete scenarios: texts in
the table parse to the paired value, everything else fails to parse. -/
def oracleOf (table : List (String × Json)) : JsonParse :=
  fun s => (table.find? (fun p => p.1 = s)).map (fun p => p.2)

namespace EdgeProxy

/-- Upstream base URL configured in `src/api.js`. -/
def API_URL : String := "https://script.google.com/macros/s/AKfycbx8hiEDN_ncShkzXKoOk79enFAvcH7TP_xV0KmEqtB5dj1hOkL7f4iterT_KT45PHXoGw/exec"

/-- The origin allow-list configured in `src/api.js`. -/
def ALLOWED_ORIGINS : List String := ["https://djamchid.github.io"]

/-- Maximum POST payload size (1 MiB), from `src/api.js`. -/
def MAX_PAYLOAD_SIZE : Nat := 1024 * 1024

/-- An inbound HTTP request as `handleRequest` consumes it: the method,
the `Origin`, `Content-Type` and `Content-Length` headers (`none` when
absent, as `headers.get` returns `null`), the URL's query parameters in
order, and the raw body text. -/
structure EdgeRequest where
  method : String
  origin : Option String
  queryParams : List (String × String)
  contentType : Option String
  contentLength : Option String
  body : String
deriving DecidableEq

/-- An outbound call from the proxy to the upstream API: method, query
parameters appended to `API_URL`, the `Content-Type` header sent (GET
sends none), and the forwarded body (GET sends none). -/
structure OutboundCall where
  method : String
  urlParams : List (String × String)
  contentType : Option String
  body : Option String
deriving DecidableEq

/-- The upstream's reply to an outbound call: its HTTP status and its
body text. -/
structure UpstreamResp where
  status : Nat
  text : String
deriving DecidableEq

/-- A `fetch` oracle for the proxy: `Except.error` models a network
failure (the `catch` branch), `Except.ok` a transport-level success. -/
abbrev Fetch := OutboundCall → Except Unit UpstreamResp

/-- A response emitted by the proxy: status, body (`none` for the empty
204 preflight body), headers in order. -/
structure EdgeResponse where
  status : Nat
  body : Option String
  headers : List (String × String)
deriving DecidableEq

/-- The CORS header set computed from the validated origin
(`src/api.js` lines 24-29). -/
def corsHeaders (origin : String) : List (String × String) :=
  [("Access-Control-Allow-Origin", origin),
   ("Access-Control-Allow-Methods", "GET, POST, OPTIONS"),
   ("Access-Control-Allow-Headers", "Content-Type, X-Requested-With"),
   ("Access-Control-Max-Age", "86400")]

/-- The serialized JSON error body `JSON.stringify({result:'error',
error: msg})` used by every proxy error branch. -/
def errorBody (msg : String) : String :=
  Json.stringify (Json.obj [("result", Json.str "error"), ("error", Json.str msg)])

/-- The origin check `ALLOWED_ORIGINS.includes(origin)`: an absent
`Origin` header (`null`) is never in the list of strings. -/
def originAllowed : Option String → Bool
  | some o => ALLOWED_ORIGINS.contains o
  | none => false

/-- The payload-size guard on the declared `Content-Length`
(`src/api.js` line 90-91): `parseInt(header || '0') > MAX_PAYLOAD_SIZE`.
An absent header defaults to `'0'`; a `NaN` parse makes the comparison
false. -/
def sizeGuardTrips (contentLength : Option String) : Bool :=
  match parseIntJS (contentLength.getD "0") with
  | some n => n > (MAX_PAYLOAD_SIZE : Int)
  | none => false

/-- The content-type test `contentType && contentType.includes('application/json')`. -/
def ctIsJson : Option String → Bool
  | some ct => strIncludes ct "application/json"
  | none => false

/-- Relay an upstream response: its status and body verbatim, with the
CORS headers and a forced `Content-Type: application/json`. -/
def relayResponse (cors : List (String × String)) (r : UpstreamResp) : EdgeResponse :=
  { status := r.status, body := some r.text,
    headers := cors ++ [("Content-Type", "application/json")] }

/-- The generic 500 response for a failure while contacting the upstream. -/
def upstreamFailureResponse (cors : List (String × String)) : EdgeResponse :=
  { status := 500,
    body := some (errorBody "Erreur lors de la communication avec le serveur"),
    headers := cors ++ [("Content-Type", "application/json")] }

/-- The 413 payload-too-large response. -/
def resp413 (origin : String) : EdgeResponse :=
  { status := 413,
    body := some (errorBody "Taille de la requête trop importante"),
    headers := corsHeaders origin ++ [("Content-Type", "application/json")] }

/-- The POST body handling and forwarding of `handleRequest`
(`src/api.js` lines 104-163), after the size guard has passed: parse the
body as JSON only when the content type contains `application/json`
(malformed JSON gives a 400 and no upstream call), otherwise take the raw
text; forward to the upstream with the original content type (defaulted
to `application/json`), the body re-serialized unless it is a string
(`typeof body === 'string' ? body : JSON.stringify(body)`); relay the
upstream's status and body, or give a 500 on network failure. -/
def handlePostBody (jp : JsonParse) (fetch : Fetch) (origin : String)
    (req : EdgeRequest) : EdgeResponse × List OutboundCall :=
  let cors := corsHeaders origin
  let bodyOr400 : Except EdgeResponse String :=
    if ctIsJson req.contentType then
      match jp req.body with
      | none => .error
          { status := 400, body := some (errorBody "Format JSON invalide"),
            headers := cors ++ [("Content-Type", "application/json")] }
      | some j =>
          .ok (match j with
               | .str s => s
               | other => Json.stringify other)
    else .ok req.body
  match bodyOr400 with
  | .error resp => (resp, [])
  | .ok forwardBody =>
      let call : OutboundCall :=
        { method := "POST", urlParams := [],
          contentType := some (req.contentType.getD "application/json"),
          body := some forwardBody }
      match fetch call with
      | .ok r => (relayResponse cors r, [call])
      | .error _ => (upstreamFailureResponse cors, [call])

/-- Shallow embedding of `handleRequest` from `src/api.js`: origin check
first (403 with no CORS headers and no upstream call), then CORS headers
from the reflected origin, then method dispatch — OPTIONS 204, GET
forwards the query parameters, POST goes through the size guard and
`handlePostBody`, anything else 405.  The second component is the trace
of outbound upstream calls. -/
def handleRequest (jp : JsonParse) (fetch : Fetch) (req : EdgeRequest) :
    EdgeResponse × List OutboundCall :=
  if ¬ originAllowed req.origin then
    ({ status := 403, body := some (errorBody "Origine non autorisée"),
       headers := [("Content-Type", "application/json")] }, [])
  else
    let origin := req.origin.getD ""
    let cors := corsHeaders origin
    if req.method = "OPTIONS" then
      ({ status := 204, body := none, headers := cors }, [])
    else if req.method = "GET" then
      let call : OutboundCall :=
        { method := "GET", urlParams := req.queryParams,
          contentType := none, body := none }
      match fetch call with
      | .ok r => (relayResponse cors r, [call])
      | .error _ => (upstreamFailureResponse cors, [call])
    else if req.method = "POST" then
      if sizeGuardTrips req.contentLength then
        (resp413 origin, [])
      else
        handlePostBody jp fetch origin req
    else
      ({ status := 405, body := some (errorBody "Méthode non supportée"),
         headers := cors ++ [("Content-Type", "application/json"), ("Allow", "GET, POST, OPTIONS")] }, [])

end EdgeProxy

namespace ApiClient

/-- Upstream base URL configured in the client file. -/
def API_URL : String := "https://script.google.com/macros/s/AKfycbwQQxPHrQxXm4Rx1NItu0Ejcj0BNE032zwrStBU7_zcV40VY0trPwk2CBKZN7gQ5Zp0fA/exec"

/-- The mutable fields of `FeteVoisinsApiClient`: the held CSRF token
(`null` initially, modelled as `none`), the last recorded error message,
and the initialization flag. -/
structure ClientState where
  csrfToken : Option Json
  lastError : Option String
  isInitialized : Bool

/-- One response from the network, as `fetch` resolves it: the `ok`
flag, the status and status text, and the body text read by
`response.text()`. -/
structure NetResponse where
  ok : Bool
  status : Nat
  statusText : String
  text : String

/-- One network call issued by the client: the method, the URL search
parameters in insertion order, and the serialized request body (POST
with data only). -/
structure ClientCall where
  method : String
  params : List (String × String)
  body : Option String

/-- Look up a parameter value on the params object. -/
def lookupParam (ps : List (String × String)) (k : String) : Option String :=
  (ps.find? (fun p => p.1 = k)).map (fun p => p.2)

/-- Assignment `params[k] = v` on the params object: update in place or
append, JS insertion-order semantics. -/
def setParam (ps : List (String × String)) (k v : String) : List (String × String) :=
  if ps.any (fun p => p.1 = k) then
    ps.map (fun p => if p.1 = k then (k, v) else p)
  else
    ps ++ [(k, v)]

/-- Falsiness of a string-valued property that may be absent:
`!params.origin` holds for an absent key or an empty string. -/
def falsyStrProp : Option String → Bool
  | none => true
  | some s => s = ""

/-- The application-level error test `responseData.result === 'error'`:
a strict comparison, true exactly when the `result` field holds the
string `"error"`. -/
def isErrorEnvelope (j : Json) : Bool :=
  match j.lookup "result" with
  | some (Json.str s) => s = "error"
  | _ => false

/-- Result of one `makeRequest` call: the returned JSON (or the thrown
error message), the client state after the call, the unconsumed rest of
the response script, the network calls made, and the caller's `data`
object as it stands after the call (makeRequest mutates it in place). -/
structure MROut where
  result : Except String Json
  state : ClientState
  script : List NetResponse
  calls : List ClientCall
  finalData : Option Json

/-- Result of a client operation other than `makeRequest`. -/
structure COut (α : Type) where
  result : Except String α
  state : ClientState
  script : List NetResponse
  calls : List ClientCall

/-- Shallow embedding of `makeRequest(method, params, data)` (client
file lines 84-165).  `pageOrigin` is `window.location.origin`; `script`
is the sequence of network responses the environment will provide, one
consumed per call (an empty script models a rejected `fetch`, whose
message is modelled by the generic fallback).  Steps, in source order:
inject `origin` into the params when absent or falsy; for a POST with a
truthy `data` argument, mutate `data` in place with the held
`csrfToken` and the page origin and serialize it as the body; perform
the call; throw on a non-ok status; parse the body with the `JSON.parse`
oracle, throwing on failure; update the held token from `newCsrfToken`,
else from `csrfToken`, when truthy; throw the body's `error` message
when its `result` field is the string `"error"`; otherwise return the
parsed body.  Every thrown message is also recorded in `lastError` by
the surrounding catch. -/
def makeRequest (jp : JsonParse) (pageOrigin : String)
    (st : ClientState) (script : List NetResponse)
    (method : String) (params : List (String × String)) (data : Option Json) : MROut :=
  let params1 :=
    if falsyStrProp (lookupParam params "origin") then setParam params "origin" pageOrigin
    else params
  let bodyAndData : Option String × Option Json :=
    match data with
    | some d =>
        if method = "POST" && d.truthy then
          let d1 := (d.setField "csrfToken" (st.csrfToken.getD Json.null)).setField "origin"
            (Json.str pageOrigin)
          (some (Json.stringify d1), some d1)
        else (none, some d)
    | none => (none, none)
  let call : ClientCall := { method := method, params := params1, body := bodyAndData.1 }
  match script with
  | [] =>
      let msg := "Erreur de communication"
      { result := .error msg, state := { st with lastError := some msg },
        script := [], calls := [call], finalData := bodyAndData.2 }
  | resp :: rest =>
      if ¬ resp.ok then
        let msg := "Erreur HTTP: " ++ toString resp.status ++ " " ++ resp.statusText
        { result := .error msg, state := { st with lastError := some msg },
          script := rest, calls := [call], finalData := bodyAndData.2 }
      else
        match jp resp.text with
        | none =>
            let msg := "Format de réponse invalide"
            { result := .error msg, state := { st with lastError := some msg },
              script := rest, calls := [call], finalData := bodyAndData.2 }
        | some responseData =>
            let st1 :=
              match responseData.getTruthy "newCsrfToken" with
              | some v => { st with csrfToken := some v }
              | none =>
                  match responseData.getTruthy "csrfToken" with
                  | some v => { st with csrfToken := some v }
                  | none => st
            if isErrorEnvelope responseData then
              let msg :=
                match responseData.getTruthy "error" with
                | some v => jsString v
                | none => "Erreur inconnue"
              { result := .error msg, state := { st1 with lastError := some msg },
                script := rest, calls := [call], finalData := bodyAndData.2 }
            else
              { result := .ok responseData, state := st1,
                script := rest, calls := [call], finalData := bodyAndData.2 }

/-- Shallow embedding of `refreshCsrfToken()` (client file lines 58-75):
a GET with the page origin as sole parameter; on a returned body with a
truthy `csrfToken` field the held token is overwritten with that value
and the call succeeds; otherwise a missing-token error is thrown.  The
catch records a prefixed message in `lastError` (the empty-message
fallback mirrors `error.message || 'Erreur inconnue'`) and rethrows the
original error. -/
def refreshCsrfToken (jp : JsonParse) (pageOrigin : String)
    (st : ClientState) (script : List NetResponse) : COut Bool :=
  let r := makeRequest jp pageOrigin st script "GET" [("origin", pageOrigin)] none
  match r.result with
  | .ok response =>
      match response.getTruthy "csrfToken" with
      | some v =>
          { result := .ok true, state := { r.state with csrfToken := some v },
            script := r.script, calls := r.calls }
      | none =>
          let msg := "Pas de jeton CSRF dans la réponse"
          let recorded := "Erreur de rafraîchissement du jeton: " ++ orDefault msg "Erreur inconnue"
          { result := .error msg,
            state := { r.state with lastError := some recorded },
            script := r.script, calls := r.calls }
  | .error e =>
      let recorded := "Erreur de rafraîchissement du jeton: " ++ orDefault e "Erreur inconnue"
      { result := .error e,
        state := { r.state with lastError := some recorded },
        script := r.script, calls := r.calls }

/-- Shallow embedding of `init()` (client file lines 27-53): refresh the
token; on success set `isInitialized` and return `true`; on failure
record `error.message || 'Erreur d\x27initialisation'` in `lastError` and
return `false` (init catches, it never throws).  The DOM event dispatch
is outside the model. -/
def init (jp : JsonParse) (pageOrigin : String)
    (st : ClientState) (script : List NetResponse) : COut Bool :=
  let r := refreshCsrfToken jp pageOrigin st script
  match r.result with
  | .ok _ =>
      { result := .ok true, state := { r.state with isInitialized := true },
        script := r.script, calls := r.calls }
  | .error e =>
      { result := .ok false,
        state := { r.state with lastError := some (orDefault e "Erreur d\x27initialisation") },
        script := r.script, calls := r.calls }

end ApiClient

namespace ApiClient

/-- The required-field list of `validateFormData`. -/
def requiredFields : List String := ["nom", "email", "categorie", "detail", "portions"]

/-- The missing-field collection loop of `validateFormData`: the required
fields whose value is absent or falsy (`if (!data[field])`), in order. -/
def missingFields (data : Json) : List String :=
  requiredFields.filter (fun f => (data.getTruthy f).isNone)

/-- Model of the test of `/^[^\s@]+@[^\s@]+\.[^\s@]+$/`: exactly one
`@`; the part before it non-empty with no whitespace; the part after it
free of whitespace and containing a dot strictly inside it. -/
def emailTest (s : String) : Bool :=
  match s.toList.splitOn '@' with
  | [l, r] =>
      (!l.isEmpty) && l.all (fun c => !isWs c) && r.all (fun c => !isWs c)
        && ((r.drop 1).dropLast.contains '.')
  | _ => false

/-- Model of the test of `/^[0-9]{10}$/`. -/
def phoneTest (s : String) : Bool :=
  s.toList.length = 10 && s.toList.all Char.isDigit

/-- Model of `parseInt(v)` applied to a possibly-absent JSON property:
`parseInt` coerces its argument to a string first; an absent property
(JS `undefined`) stringifies to `"undefined"` and parses to `NaN`. -/
def jsParseIntOf (v : Option Json) : Option Int :=
  match v with
  | none => none
  | some j => parseIntJS (jsString j)

/-- The valid category list of `validateFormData`. -/
def validCategories : List String := ["sale", "sucre", "soft", "alco"]

/-- Shallow embedding of `validateFormData(data)` (client file lines
230-282), checks in source order: a falsy `data` throws; the missing
required fields are collected and, when any, thrown as one combined
message; then the email shape, the category (`includes` on the list is a
strict comparison, so only a string value can match), `nbPersonnes` in
[1,20], `portions` in [1,100], and — when `telephone` is truthy with
non-blank trimmed text — the 10-digit phone shape.  String methods on
the telephone value are modelled through JS string coercion.  Returns
`true` when all checks pass; `Except.error` carries the thrown message. -/
def validateFormData (data : Json) : Except String Bool :=
  if ¬ data.truthy then .error "Aucune donnée fournie"
  else
    let missing := missingFields data
    if missing.length > 0 then
      .error ("Champs obligatoires manquants: " ++ String.intercalate ", " missing)
    else
      let email := jsString ((data.lookup "email").getD Json.null)
      if ¬ emailTest email then .error "Format d\x27email invalide"
      else
        let catOk : Bool :=
          match data.lookup "categorie" with
          | some (Json.str c) => validCategories.contains c
          | _ => false
        if ¬ catOk then .error "Catégorie invalide"
        else
          let nbPersonnes := jsParseIntOf (data.lookup "nbPersonnes")
          let nbOk : Bool :=
            match nbPersonnes with
            | none => false
            | some n => 1 ≤ n && n ≤ 20
          if ¬ nbOk then .error "Nombre de personnes invalide (doit être entre 1 et 20)"
          else
            let portions := jsParseIntOf (data.lookup "portions")
            let portionsOk : Bool :=
              match portions with
              | none => false
              | some n => 1 ≤ n && n ≤ 100
            if ¬ portionsOk then .error "Nombre de portions invalide (doit être entre 1 et 100)"
            else
              let telCheck : Except String Bool :=
                match data.lookup "telephone" with
                | some t =>
                    if t.truthy && jsTrim (jsString t) ≠ "" then
                      if phoneTest (jsString t) then .ok true
                      else .error "Format de téléphone invalide (10 chiffres attendus)"
                    else .ok true
                | none => .ok true
              telCheck

/-- Shallow embedding of `submitContribution(formData)` (client file
lines 198-223).  Steps, in source order: lazy `init` when not yet
initialized (init catches its own failures, so submission proceeds
regardless of its outcome); `validateFormData` (a validation error is
rethrown after recording a prefixed `lastError`); a first POST through
`makeRequest` with the form as data — note `makeRequest` mutates the
caller's `formData` in place, so a resubmission passes the mutated
object; when `makeRequest` THROWS (as it does for every body with
`result: "error"`), the catch records a prefixed `lastError` and
rethrows — no retry; when it RETURNS a body whose truthy `error` string
field contains `"jeton invalide"`, the token is refreshed and the same
(mutated) form object resubmitted once, the second outcome being
returned or rethrown as is.  A truthy non-string `error` field would
raise a `TypeError` on `.includes`; its platform message is modelled by
a fixed string. -/
def submitContribution (jp : JsonParse) (pageOrigin : String)
    (st : ClientState) (script : List NetResponse) (formData : Json) : COut Json :=
  let afterInit : ClientState × List NetResponse × List ClientCall :=
    if st.isInitialized then (st, script, [])
    else
      let i := init jp pageOrigin st script
      (i.state, i.script, i.calls)
  let st1 := afterInit.1
  let script1 := afterInit.2.1
  let calls1 := afterInit.2.2
  let submitPrefix := "Erreur lors de l\x27envoi de la contribution: "
  match validateFormData formData with
  | .error e =>
      { result := .error e,
        state := { st1 with lastError := some (submitPrefix ++ orDefault e "Erreur inconnue") },
        script := script1, calls := calls1 }
  | .ok _ =>
      let r1 := makeRequest jp pageOrigin st1 script1 "POST" [] (some formData)
      match r1.result with
      | .error e =>
          { result := .error e,
            state := { r1.state with lastError := some (submitPrefix ++ orDefault e "Erreur inconnue") },
            script := r1.script, calls := calls1 ++ r1.calls }
      | .ok response =>
          let mutatedForm := r1.finalData.getD formData
          match response.getTruthy "error" with
          | some (Json.str s) =>
              if strIncludes s "jeton invalide" then
                let r2 := refreshCsrfToken jp pageOrigin r1.state r1.script
                match r2.result with
                | .error e =>
                    { result := .error e,
                      state := { r2.state with lastError := some (submitPrefix ++ orDefault e "Erreur inconnue") },
                      script := r2.script, calls := calls1 ++ r1.calls ++ r2.calls }
                | .ok _ =>
                    let r3 := makeRequest jp pageOrigin r2.state r2.script "POST" [] (some mutatedForm)
                    match r3.result with
                    | .error e =>
                        { result := .error e,
                          state := { r3.state with lastError := some (submitPrefix ++ orDefault e "Erreur inconnue") },
                          script := r3.script, calls := calls1 ++ r1.calls ++ r2.calls ++ r3.calls }
                    | .ok resp2 =>
                        { result := .ok resp2, state := r3.state,
                          script := r3.script, calls := calls1 ++ r1.calls ++ r2.calls ++ r3.calls }
              else
                { result := .ok response, state := r1.state,
                  script := r1.script, calls := calls1 ++ r1.calls }
          | some _ =>
              let e := "response.error.includes is not a function"
              { result := .error e,
                state := { r1.state with lastError := some (submitPrefix ++ orDefault e "Erreur inconnue") },
                script := r1.script, calls := calls1 ++ r1.calls }
          | none =>
              { result := .ok response, state := r1.state,
                script := r1.script, calls := calls1 ++ r1.calls }

end ApiClient

namespace EdgeProxy

/-- A disallowed-origin request used as concrete input: a POST from an
origin outside the allow-list. -/
def evilReq : EdgeRequest :=
  { method := "POST", origin := some "https://evil.example",
    queryParams := [], contentType := some "application/json",
    contentLength := some "10", body := "\x7b\x7d" }

/-- A `JSON.parse` oracle that fails on every input. -/
def jpNone : JsonParse := fun _ => none

/-- A `fetch` oracle that fails on every call. -/
def fetchFail : Fetch := fun _ => .error ()

/-- A `fetch` oracle that answers 200 with a fixed body on every call. -/
def fetchOk : Fetch := fun _ => .ok { status := 200, text := "\x7b\"result\":\"success\"\x7d" }

/-- C4: a request whose `Origin` header is not in the allow-list gets a
403 whose JSON body is `{result:"error", error:"Origine non autorisée"}`,
and the proxy makes zero outbound calls to the upstream. -/
theorem origin_rejected_403_no_upstream (jp : JsonParse) (fetch : Fetch) (req : EdgeRequest)
    (h : originAllowed req.origin = false) :
    handleRequest jp fetch req =
      ({ status := 403, body := some (errorBody "Origine non autorisée"),
         headers := [("Content-Type", "application/json")] }, [])
    ∧ errorBody "Origine non autorisée" =
        "\x7b\"result\":\"error\",\"error\":\"Origine non autorisée\"\x7d" := by
  refine ⟨?_, by decide⟩
  unfold handleRequest
  rw [h]
  simp

/-- Witness for C4 at a concrete disallowed origin. -/
theorem origin_rejected_403_no_upstream_witness :
    handleRequest jpNone fetchFail evilReq =
      ({ status := 403, body := some (errorBody "Origine non autorisée"),
         headers := [("Content-Type", "application/json")] }, []) :=
  (origin_rejected_403_no_upstream jpNone fetchFail evilReq (by decide)).1

end EdgeProxy

namespace EdgeProxy

/-- For an allowed-origin POST, `handleRequest` is the size guard
followed by the body-handling stage. -/
theorem handleRequest_post_dispatch (jp : JsonParse) (fetch : Fetch) (req : EdgeRequest)
    (ho : originAllowed req.origin = true) (hm : req.method = "POST") :
    handleRequest jp fetch req =
      if sizeGuardTrips req.contentLength then (resp413 (req.origin.getD ""), [])
      else handlePostBody jp fetch (req.origin.getD "") req := by
  unfold handleRequest
  rw [hm]
  simp [ho]

/-- C5: a POST whose declared `Content-Length` parses to a value above
1 MiB (1048576 = `MAX_PAYLOAD_SIZE`) gets a 413 whatever the body is —
the body is never read — with zero upstream calls; one that parses to at
most 1 MiB passes the size guard and proceeds to body handling. -/
theorem post_size_guard (jp : JsonParse) (fetch : Fetch) (req : EdgeRequest) (n : Int)
    (hm : req.method = "POST") (ho : originAllowed req.origin = true)
    (hn : parseIntJS (req.contentLength.getD "0") = some n) :
    (n > 1048576 → ∀ b : String,
        handleRequest jp fetch { req with body := b } = (resp413 (req.origin.getD ""), []))
    ∧ (n ≤ 1048576 → sizeGuardTrips req.contentLength = false ∧
        handleRequest jp fetch req = handlePostBody jp fetch (req.origin.getD "") req)
    ∧ (MAX_PAYLOAD_SIZE : Int) = 1048576 := by
  have hmax : (MAX_PAYLOAD_SIZE : Int) = 1048576 := by decide
  refine ⟨?_, ?_, hmax⟩
  · intro hgt b
    have htrip : sizeGuardTrips req.contentLength = true := by
      unfold sizeGuardTrips
      rw [hn]
      simp only [hmax, decide_eq_true_eq]
      exact hgt
    have key := handleRequest_post_dispatch jp fetch { req with body := b } ho hm
    simpa [htrip] using key
  · intro hle
    have htrip : sizeGuardTrips req.contentLength = false := by
      unfold sizeGuardTrips
      rw [hn]
      simp only [hmax, decide_eq_false_iff_not, not_lt]
      exact hle
    have key := handleRequest_post_dispatch jp fetch req ho hm
    rw [htrip] at key
    exact ⟨htrip, by simpa using key⟩

/-- Witness for C5: a POST declaring 2000000 bytes is rejected with 413
and no upstream call, for any body. -/
theorem post_size_guard_witness :
    handleRequest jpNone fetchOk
        { method := "POST", origin := some "https://djamchid.github.io",
          queryParams := [], contentType := some "application/json",
          contentLength := some "2000000", body := "irrelevant" } =
      (resp413 "https://djamchid.github.io", []) := by
  have h := (post_size_guard jpNone fetchOk
    { method := "POST", origin := some "https://djamchid.github.io",
      queryParams := [], contentType := some "application/json",
      contentLength := some "2000000", body := "" } 2000000 rfl (by decide) (by decide)).1
    (by decide) "irrelevant"
  simpa using h

end EdgeProxy

namespace EdgeProxy

/-- C10: for an allowed-origin POST, `handleRequest` takes the 413
branch exactly when `parseInt` of the declared `Content-Length`
(defaulted to `'0'`) yields a value above 1048576 — so an absent header
(treated as 0) and a non-numeric header (`NaN`, for which the comparison
is false) both pass the guard and the request proceeds to body
handling regardless of the body's actual size. -/
theorem size_guard_parse_semantics (jp : JsonParse) (fetch : Fetch) (req : EdgeRequest)
    (hm : req.method = "POST") (ho : originAllowed req.origin = true) :
    (handleRequest jp fetch req =
       if sizeGuardTrips req.contentLength then (resp413 (req.origin.getD ""), [])
       else handlePostBody jp fetch (req.origin.getD "") req)
    ∧ (sizeGuardTrips req.contentLength = true ↔
        ∃ n : Int, parseIntJS (req.contentLength.getD "0") = some n ∧ n > 1048576)
    ∧ (req.contentLength = none → sizeGuardTrips req.contentLength = false)
    ∧ (∀ s, req.contentLength = some s → parseIntJS s = none →
        sizeGuardTrips req.contentLength = false) := by
  have hmax : (MAX_PAYLOAD_SIZE : Int) = 1048576 := by decide
  refine ⟨handleRequest_post_dispatch jp fetch req ho hm, ?_, ?_, ?_⟩
  · unfold sizeGuardTrips
    rcases hp : parseIntJS (req.contentLength.getD "0") with _ | n
    · simp
    · simp [hmax]
  · intro hnone
    unfold sizeGuardTrips
    rw [hnone]
    decide
  · intro s hs hnan
    unfold sizeGuardTrips
    rw [hs]
    simp only [Option.getD_some]
    rw [hnan]

/-- Witness for C10: a POST with a non-numeric `Content-Length` passes
the guard and reaches body handling. -/
theorem size_guard_parse_semantics_witness :
    sizeGuardTrips (some "not-a-number") = false ∧
    handleRequest jpNone fetchOk
        { method := "POST", origin := some "https://djamchid.github.io",
          queryParams := [], contentType := none,
          contentLength := some "not-a-number", body := "raw" } =
      handlePostBody jpNone fetchOk "https://djamchid.github.io"
        { method := "POST", origin := some "https://djamchid.github.io",
          queryParams := [], contentType := none,
          contentLength := some "not-a-number", body := "raw" } := by
  have h := size_guard_parse_semantics jpNone fetchOk
    { method := "POST", origin := some "https://djamchid.github.io",
      queryParams := [], contentType := none,
      contentLength := some "not-a-number", body := "raw" } rfl (by decide)
  have hguard := h.2.2.2 "not-a-number" rfl (by decide)
  refine ⟨hguard, ?_⟩
  have hd := h.1
  rw [hguard] at hd
  simpa using hd

/-- C6: for an allowed-origin POST that passed the size guard: when the
`Content-Type` contains `application/json` and the body fails to parse,
the proxy answers 400 with an explicit error body and makes zero
upstream calls; when the `Content-Type` does not contain
`application/json` (or is absent), the body is forwarded to the
upstream as raw text unchanged. -/
theorem post_body_content_type (jp : JsonParse) (fetch : Fetch) (req : EdgeRequest)
    (hm : req.method = "POST") (ho : originAllowed req.origin = true)
    (hsz : sizeGuardTrips req.contentLength = false) :
    (ctIsJson req.contentType = true → jp req.body = none →
        handleRequest jp fetch req =
          ({ status := 400, body := some (errorBody "Format JSON invalide"),
             headers := corsHeaders (req.origin.getD "") ++ [("Content-Type", "application/json")] },
           []))
    ∧ (ctIsJson req.contentType = false →
        (handleRequest jp fetch req).2 =
          [{ method := "POST", urlParams := [],
             contentType := some (req.contentType.getD "application/json"),
             body := some req.body }]) := by
  have key := handleRequest_post_dispatch jp fetch req ho hm
  rw [hsz] at key
  simp only [Bool.false_eq_true, if_false] at key
  constructor
  · intro hct hjp
    rw [key]
    unfold handlePostBody
    rw [hct]
    simp [hjp]
  · intro hct
    rw [key]
    unfold handlePostBody
    rw [hct]
    simp only [Bool.false_eq_true, if_false]
    cases hfe : fetch ⟨"POST", [], some (req.contentType.getD "application/json"), some req.body⟩ <;>
      simp [hfe]

/-- Witness for C6: a POST with JSON content type and an unparsable body
gets a 400 and no upstream call. -/
theorem post_body_content_type_witness :
    handleRequest jpNone fetchOk
        { method := "POST", origin := some "https://djamchid.github.io",
          queryParams := [], contentType := some "application/json",
          contentLength := some "5", body := "not json" } =
      ({ status := 400, body := some (errorBody "Format JSON invalide"),
         headers := corsHeaders "https://djamchid.github.io" ++ [("Content-Type", "application/json")] },
       []) := by
  have h := (post_body_content_type jpNone fetchOk
    { method := "POST", origin := some "https://djamchid.github.io",
      queryParams := [], contentType := some "application/json",
      contentLength := some "5", body := "not json" } rfl (by decide) (by decide)).1
    (by decide) rfl
  simpa using h

end EdgeProxy

namespace EdgeProxy

/-- Counterexample to C2: the 403 origin-rejection response is built
before the CORS header set and carries only `Content-Type` — no
`Access-Control-*` header at all. -/
theorem cors_missing_on_403_counterexample :
    (handleRequest jpNone fetchFail evilReq).1.status = 403 ∧
    (handleRequest jpNone fetchFail evilReq).1.headers = [("Content-Type", "application/json")] ∧
    ((handleRequest jpNone fetchFail evilReq).1.headers.map Prod.fst).contains
        "Access-Control-Allow-Origin" = false := by
  decide

/-- Every response to an allowed-origin request has the CORS header set
as a strict suffix-extension base: its headers start with
`corsHeaders o`. -/
theorem headers_extend_cors (jp : JsonParse) (fetch : Fetch) (req : EdgeRequest) (o : String)
    (horig : req.origin = some o) (ho : originAllowed req.origin = true) :
    ∃ t, (handleRequest jp fetch req).1.headers = corsHeaders o ++ t := by
  have ho' : originAllowed (some o) = true := by rw [← horig]; exact ho
  unfold handleRequest handlePostBody relayResponse upstreamFailureResponse resp413
  rw [horig]
  simp only [ho', not_true, if_false, Option.getD_some]
  repeat' split
  all_goals try first
    | exact ⟨_, rfl⟩
    | exact ⟨[], (List.append_nil _).symm⟩
    | simp_all
  all_goals rename_i heq
  all_goals split at heq
  all_goals try split at heq
  all_goals simp_all
  all_goals (subst heq; exact ⟨_, rfl⟩)

/-- C2 (amended): every response produced by `handleRequest` for a
request whose `Origin` passes the allow-list carries the four CORS
headers (origin reflected, `GET, POST, OPTIONS` methods,
`Content-Type, X-Requested-With` headers, max-age 86400); the 403
origin-rejection response, built before the CORS set, carries only
`Content-Type` and is the one exception to the claim. -/
theorem cors_on_every_allowed_response (jp : JsonParse) (fetch : Fetch) (req : EdgeRequest)
    (o : String) (horig : req.origin = some o) (ho : originAllowed req.origin = true) :
    ∀ h ∈ corsHeaders o, h ∈ (handleRequest jp fetch req).1.headers := by
  obtain ⟨t, ht⟩ := headers_extend_cors jp fetch req o horig ho
  intro h hh
  rw [ht]
  exact List.mem_append_left t hh

/-- Witness for C2 (amended): the preflight response to an allowed
origin carries the reflected `Access-Control-Allow-Origin` header. -/
theorem cors_on_every_allowed_response_witness :
    ("Access-Control-Allow-Origin", "https://djamchid.github.io") ∈
      (handleRequest jpNone fetchFail
        { method := "OPTIONS", origin := some "https://djamchid.github.io",
          queryParams := [], contentType := none, contentLength := none,
          body := "" }).1.headers :=
  cors_on_every_allowed_response jpNone fetchFail
    { method := "OPTIONS", origin := some "https://djamchid.github.io",
      queryParams := [], contentType := none, contentLength := none, body := "" }
    "https://djamchid.github.io" rfl (by decide)
    ("Access-Control-Allow-Origin", "https://djamchid.github.io") (by decide)

end EdgeProxy

namespace ApiClient

/-- The upstream error envelope for an invalid CSRF token, as raw text. -/
def tokenErrText : String := "\x7b\"result\":\"error\",\"error\":\"jeton invalide\"\x7d"

/-- A `JSON.parse` oracle parsing exactly the invalid-token envelope. -/
def tokenErrParse : JsonParse :=
  oracleOf [(tokenErrText, Json.obj [("result", Json.str "error"), ("error", Json.str "jeton invalide")])]

/-- A contribution form that passes `validateFormData`. -/
def sampleForm : Json :=
  Json.obj [("nom", Json.str "Alice"), ("email", Json.str "a@b.cd"),
            ("categorie", Json.str "sale"), ("detail", Json.str "tarte"),
            ("portions", Json.str "10"), ("nbPersonnes", Json.str "4")]

/-- An initialized client holding a token. -/
def readyState : ClientState :=
  { csrfToken := some (Json.str "tok0"), lastError := none, isInitialized := true }

/-- A network script whose first response is the invalid-token error
envelope (HTTP 200), with two spare responses available for the token
refresh and the resubmission the retry protocol would perform. -/
def invalidTokenScript : List NetResponse :=
  [{ ok := true, status := 200, statusText := "OK", text := tokenErrText },
   { ok := true, status := 200, statusText := "OK", text := "spare1" },
   { ok := true, status := 200, statusText := "OK", text := "spare2" }]

/-- C1 (divergence exhibited): on an initialized client whose first POST
is answered by `{result:"error", error:"jeton invalide"}`,
`submitContribution` performs NO token refresh and NO resubmission —
`makeRequest` throws on every `result:"error"` envelope before the retry
check (which only inspects returned values) can run, so the client makes
exactly one network call, a POST, leaves the two spare responses
unconsumed, and propagates the first failure to the caller.  The spec's
one-refresh-one-resubmission protocol never executes. -/
theorem submit_no_retry_on_invalid_token :
    (submitContribution tokenErrParse "https://djamchid.github.io" readyState
        invalidTokenScript sampleForm).result = .error "jeton invalide"
    ∧ (submitContribution tokenErrParse "https://djamchid.github.io" readyState
        invalidTokenScript sampleForm).calls.map (fun c => c.method) = ["POST"]
    ∧ (submitContribution tokenErrParse "https://djamchid.github.io" readyState
        invalidTokenScript sampleForm).script.length = 2 :=
  ⟨rfl, rfl, rfl⟩

/-- Raw text of a token-refresh response that carries `newCsrfToken` but
no `csrfToken` field. -/
def newTokenOnlyText : String := "\x7b\"newCsrfToken\":\"fresh\"\x7d"

/-- A `JSON.parse` oracle parsing exactly that response. -/
def newTokenOnlyParse : JsonParse :=
  oracleOf [(newTokenOnlyText, Json.obj [("newCsrfToken", Json.str "fresh")])]

/-- A client holding a prior token `"old"`. -/
def oldTokenState : ClientState :=
  { csrfToken := some (Json.str "old"), lastError := none, isInitialized := true }

/-- Counterexample to C3: a refresh whose GET response lacks `csrfToken`
but carries `newCsrfToken` fails with the missing-token error, yet the
held token is NOT left unchanged — `makeRequest` already overwrote it
with the `newCsrfToken` value before `refreshCsrfToken` checked for
`csrfToken`. -/
theorem refresh_missing_token_changes_counterexample :
    (refreshCsrfToken newTokenOnlyParse "https://djamchid.github.io" oldTokenState
        [{ ok := true, status := 200, statusText := "OK", text := newTokenOnlyText }]).result
      = .error "Pas de jeton CSRF dans la réponse"
    ∧ (refreshCsrfToken newTokenOnlyParse "https://djamchid.github.io" oldTokenState
        [{ ok := true, status := 200, statusText := "OK", text := newTokenOnlyText }]).state.csrfToken
      = some (Json.str "fresh")
    ∧ some (Json.str "fresh") ≠ some (Json.str "old") :=
  ⟨rfl, rfl, by simp⟩

end ApiClient

namespace ApiClient

/-- C3 (amended): for a refresh whose GET response is transport-ok,
parses, and is not an application-error envelope: when the body's
`csrfToken` field is absent (or falsy), the call fails with the
missing-token error and the held token is unchanged UNLESS the body
carries a truthy `newCsrfToken`, in which case the held token has been
overwritten with that value despite the failure; when a truthy
`csrfToken` field is present, the call succeeds and the held token is
overwritten with its value. -/
theorem refresh_missing_token_amended (jp : JsonParse) (pageOrigin : String)
    (st : ClientState) (resp : NetResponse) (rest : List NetResponse) (j : Json)
    (hok : resp.ok = true) (hparse : jp resp.text = some j)
    (hnoterr : isErrorEnvelope j = false) :
    (j.getTruthy "csrfToken" = none →
        (refreshCsrfToken jp pageOrigin st (resp :: rest)).result
            = .error "Pas de jeton CSRF dans la réponse"
        ∧ (refreshCsrfToken jp pageOrigin st (resp :: rest)).state.csrfToken
            = (match j.getTruthy "newCsrfToken" with
               | some v => some v
               | none => st.csrfToken))
    ∧ (∀ v, j.getTruthy "csrfToken" = some v →
        (refreshCsrfToken jp pageOrigin st (resp :: rest)).result = .ok true
        ∧ (refreshCsrfToken jp pageOrigin st (resp :: rest)).state.csrfToken = some v) := by
  unfold refreshCsrfToken makeRequest
  simp only [hok, Bool.not_true, Bool.false_eq_true, if_false, hparse, hnoterr]
  constructor
  · intro hmiss
    cases hnew : j.getTruthy "newCsrfToken" <;> simp [hnew, hmiss]
  · intro v hv
    cases hnew : j.getTruthy "newCsrfToken" <;> simp [hnew, hv]

/-- Witness for C3 (amended): a response with neither token field leaves
the prior token in place and fails with the missing-token error. -/
theorem refresh_missing_token_amended_witness :
    (refreshCsrfToken (oracleOf [("\x7b\x7d", Json.obj [])]) "https://djamchid.github.io"
        oldTokenState [{ ok := true, status := 200, statusText := "OK", text := "\x7b\x7d" }]).result
      = .error "Pas de jeton CSRF dans la réponse"
    ∧ (refreshCsrfToken (oracleOf [("\x7b\x7d", Json.obj [])]) "https://djamchid.github.io"
        oldTokenState [{ ok := true, status := 200, statusText := "OK", text := "\x7b\x7d" }]).state.csrfToken
      = some (Json.str "old") := by
  have h := (refresh_missing_token_amended (oracleOf [("\x7b\x7d", Json.obj [])])
    "https://djamchid.github.io" oldTokenState
    { ok := true, status := 200, statusText := "OK", text := "\x7b\x7d" } [] (Json.obj [])
    rfl rfl rfl).1 rfl
  exact ⟨h.1, h.2⟩

end ApiClient

namespace ApiClient

/-- C7: when a `makeRequest` response parses to a body with a truthy
`newCsrfToken` field, the held token is updated to that value — even
when a `csrfToken` field is also present; when `newCsrfToken` is not
truthy-present and `csrfToken` is, the held token is updated to the
fallback `csrfToken` value.  This holds whatever the body's `result`
field is, since the token update precedes the error check. -/
theorem makeRequest_token_update_priority (jp : JsonParse) (pageOrigin : String)
    (st : ClientState) (resp : NetResponse) (rest : List NetResponse)
    (method : String) (params : List (String × String)) (data : Option Json) (j : Json)
    (hok : resp.ok = true) (hparse : jp resp.text = some j) :
    (∀ v, j.getTruthy "newCsrfToken" = some v →
        (makeRequest jp pageOrigin st (resp :: rest) method params data).state.csrfToken = some v)
    ∧ (∀ v, j.getTruthy "newCsrfToken" = none → j.getTruthy "csrfToken" = some v →
        (makeRequest jp pageOrigin st (resp :: rest) method params data).state.csrfToken = some v) := by
  unfold makeRequest
  simp only [hok, Bool.not_true, Bool.false_eq_true, if_false, hparse]
  constructor
  · intro v hnew
    cases herr : isErrorEnvelope j <;> simp [hnew, herr]
  · intro v hnew hcsrf
    cases herr : isErrorEnvelope j <;> simp [hnew, hcsrf, herr]

/-- Witness for C7: both fields present — `newCsrfToken` wins. -/
theorem makeRequest_token_update_priority_witness :
    (makeRequest (oracleOf [("t", Json.obj [("newCsrfToken", Json.str "nw"), ("csrfToken", Json.str "cs")])])
        "https://djamchid.github.io" oldTokenState
        [{ ok := true, status := 200, statusText := "OK", text := "t" }]
        "GET" [] none).state.csrfToken = some (Json.str "nw") :=
  (makeRequest_token_update_priority
    (oracleOf [("t", Json.obj [("newCsrfToken", Json.str "nw"), ("csrfToken", Json.str "cs")])])
    "https://djamchid.github.io" oldTokenState
    { ok := true, status := 200, statusText := "OK", text := "t" } []
    "GET" [] none (Json.obj [("newCsrfToken", Json.str "nw"), ("csrfToken", Json.str "cs")])
    rfl rfl).1 (Json.str "nw") rfl

end ApiClient

/-- After the in-place field update, looking for the updated key (known
to be present) finds the new pair. -/
theorem find?_map_update (fs : List (String × Json)) (k : String) (v : Json)
    (ha : fs.any (fun p => p.1 = k) = true) :
    (fs.map (fun p => if p.1 = k then (k, v) else p)).find? (fun p => p.1 = k)
      = some (k, v) := by
  induction fs with
  | nil => exact absurd ha (by simp)
  | cons hd t ih =>
      rw [List.map_cons]
      by_cases h : hd.1 = k
      · rw [if_pos h]
        exact List.find?_cons_of_pos _ (by simp)
      · rw [if_neg h]
        rw [List.find?_cons_of_neg _ (by simpa using h)]
        apply ih
        rw [List.any_cons, decide_eq_false_iff_not.mpr h, Bool.false_or] at ha
        exact ha

/-- The in-place field update leaves lookups at other keys unchanged. -/
theorem find?_map_update_ne (fs : List (String × Json)) (k k' : String) (v : Json)
    (hne : k' ≠ k) :
    (fs.map (fun p => if p.1 = k then (k, v) else p)).find? (fun p => p.1 = k')
      = fs.find? (fun p => p.1 = k') := by
  have hkk : ¬((k : String) = k') := fun hh => hne hh.symm
  induction fs with
  | nil => rfl
  | cons hd t ih =>
      rw [List.map_cons]
      by_cases h : hd.1 = k
      · rw [if_pos h]
        rw [List.find?_cons_of_neg _ (by simpa using hkk)]
        rw [List.find?_cons_of_neg _ (by simpa using (h ▸ hkk : ¬hd.1 = k'))]
        exact ih
      · rw [if_neg h]
        by_cases h' : hd.1 = k'
        · rw [List.find?_cons_of_pos _ (by simpa using h')]
          rw [List.find?_cons_of_pos _ (by simpa using h')]
        · rw [List.find?_cons_of_neg _ (by simpa using h')]
          rw [List.find?_cons_of_neg _ (by simpa using h')]
          exact ih

/-- `o[k] = v` followed by a lookup of `k` yields `v`, on any object. -/
theorem Json.lookup_setField_self (j : Json) (k : String) (v : Json)
    (h : j.isObj = true) : (j.setField k v).lookup k = some v := by
  cases j <;> simp_all [Json.isObj]
  rename_i fs
  unfold Json.setField Json.lookup
  by_cases ha : fs.any (fun p => p.1 = k)
  · simp only [ha, if_true]
    rw [find?_map_update fs k v ha]
    rfl
  · simp only [ha, Bool.false_eq_true, if_false]
    rw [List.find?_append]
    rw [List.find?_eq_none.mpr (fun x hx => by
      intro hpx
      exact ha (List.any_eq_true.mpr ⟨x, hx, hpx⟩))]
    simp

/-- `o[k] = v` leaves every other key's lookup unchanged. -/
theorem Json.lookup_setField_ne (j : Json) (k k' : String) (v : Json)
    (hne : k' ≠ k) : (j.setField k v).lookup k' = j.lookup k' := by
  cases j <;> try rfl
  rename_i fs
  unfold Json.setField Json.lookup
  by_cases ha : fs.any (fun p => p.1 = k)
  · simp only [ha, if_true]
    rw [find?_map_update_ne fs k k' v hne]
  · simp only [ha, Bool.false_eq_true, if_false]
    rw [List.find?_append]
    have hsingle : List.find? (fun p => p.1 = k') [(k, v)] = none := by
      rw [List.find?_cons_of_neg _ (by simpa using (fun hh => hne hh.symm : ¬(k : String) = k'))]
      rfl
    rw [hsingle]
    simp

/-- `setField` preserves objecthood. -/
theorem Json.isObj_setField (j : Json) (k : String) (v : Json) :
    (j.setField k v).isObj = j.isObj := by
  cases j <;> try rfl
  rename_i fs
  unfold Json.setField
  dsimp only
  by_cases ha : fs.any (fun p => p.1 = k)
  · rw [if_pos ha]
    rfl
  · rw [if_neg ha]
    rfl

/-- An object is truthy. -/
theorem Json.truthy_of_isObj (j : Json) (h : j.isObj = true) : j.truthy = true := by
  cases j <;> simp_all [Json.isObj, Json.truthy]

namespace ApiClient

/-- Shape of a POST `makeRequest` with a (truthy, object) data argument:
whatever the network outcome, the caller's data object ends up with the
token and origin injected, and the single call's body is its
serialization. -/
theorem makeRequest_post_data_shape (jp : JsonParse) (pageOrigin : String)
    (st : ClientState) (script : List NetResponse)
    (params : List (String × String)) (d : Json) (hobj : d.isObj = true) :
    (makeRequest jp pageOrigin st script "POST" params (some d)).finalData
      = some ((d.setField "csrfToken" (st.csrfToken.getD Json.null)).setField "origin"
          (Json.str pageOrigin))
    ∧ (makeRequest jp pageOrigin st script "POST" params (some d)).calls.map (fun c => c.body)
      = [some (Json.stringify ((d.setField "csrfToken" (st.csrfToken.getD Json.null)).setField
          "origin" (Json.str pageOrigin)))] := by
  cases d <;> try simp [Json.isObj] at hobj
  refine ⟨?_, ?_⟩ <;>
    cases script with
    | nil => rfl
    | cons resp rest =>
        unfold makeRequest
        dsimp only [Json.truthy]
        (repeat' split) <;> first | rfl | simp_all

/-- C9: a POST `makeRequest` call with a data object mutates the
caller's object in place before serialization — after the call (whatever
its outcome) the object's `csrfToken` field holds the token the client
held at call time, its `origin` field holds the page origin, every other
field is untouched, and the serialized body sent was exactly this
mutated object. -/
theorem makeRequest_mutates_caller_data (jp : JsonParse) (pageOrigin : String)
    (st : ClientState) (script : List NetResponse)
    (params : List (String × String)) (d : Json) (hobj : d.isObj = true) :
    (∃ d1, (makeRequest jp pageOrigin st script "POST" params (some d)).finalData = some d1
      ∧ d1.lookup "csrfToken" = some (st.csrfToken.getD Json.null)
      ∧ d1.lookup "origin" = some (Json.str pageOrigin)
      ∧ (∀ k, k ≠ "csrfToken" → k ≠ "origin" → d1.lookup k = d.lookup k)
      ∧ (makeRequest jp pageOrigin st script "POST" params (some d)).calls.map (fun c => c.body)
          = [some (Json.stringify d1)]) := by
  obtain ⟨hfd, hcalls⟩ := makeRequest_post_data_shape jp pageOrigin st script params d hobj
  refine ⟨_, hfd, ?_, ?_, ?_, hcalls⟩
  · rw [Json.lookup_setField_ne _ _ _ _ (by decide)]
    exact Json.lookup_setField_self d "csrfToken" _ hobj
  · refine Json.lookup_setField_self _ "origin" _ ?_
    rw [Json.isObj_setField]
    exact hobj
  · intro k hk1 hk2
    rw [Json.lookup_setField_ne _ _ _ _ hk2]
    rw [Json.lookup_setField_ne _ _ _ _ hk1]

/-- Witness for C9 at a concrete form object and held token. -/
theorem makeRequest_mutates_caller_data_witness :
    ∃ d1, (makeRequest (oracleOf []) "https://djamchid.github.io" readyState []
        "POST" [] (some (Json.obj [("nom", Json.str "Bob")]))).finalData = some d1
      ∧ d1.lookup "csrfToken" = some (Json.str "tok0")
      ∧ d1.lookup "origin" = some (Json.str "https://djamchid.github.io")
      ∧ d1.lookup "nom" = some (Json.str "Bob") := by
  obtain ⟨d1, hfd, hcs, hor, hother, _⟩ :=
    makeRequest_mutates_caller_data (oracleOf []) "https://djamchid.github.io" readyState []
      [] (Json.obj [("nom", Json.str "Bob")]) rfl
  exact ⟨d1, hfd, hcs, hor, by rw [hother "nom" (by decide) (by decide)]; rfl⟩

end ApiClient

namespace ApiClient

/-- C8: whenever required fields are missing (absent or falsy),
`validateFormData` throws one combined error whose message lists exactly
the missing required fields, in order — and `missingFields` is precisely
the set of required fields absent from the data; in particular the empty
object yields a single error naming all five required fields. -/
theorem validateFormData_collects_all_missing (data : Json)
    (htruthy : data.truthy = true) (hmiss : missingFields data ≠ []) :
    validateFormData data =
      .error ("Champs obligatoires manquants: " ++ String.intercalate ", " (missingFields data))
    ∧ (∀ f, f ∈ missingFields data ↔ f ∈ requiredFields ∧ (data.getTruthy f).isNone = true)
    ∧ validateFormData (Json.obj []) =
        .error "Champs obligatoires manquants: nom, email, categorie, detail, portions" := by
  refine ⟨?_, ?_, by rfl⟩
  · unfold validateFormData
    rw [htruthy]
    have hlen : (missingFields data).length > 0 := List.length_pos.mpr hmiss
    simp only [Bool.not_true, Bool.false_eq_true, if_false, hlen, if_true]
    simp
  · intro f
    simp [missingFields, List.mem_filter]

/-- Witness for C8: with only `nom` supplied, the single combined error
names the four remaining required fields. -/
theorem validateFormData_collects_all_missing_witness :
    validateFormData (Json.obj [("nom", Json.str "Bob")]) =
      .error "Champs obligatoires manquants: email, categorie, detail, portions" := by
  rw [(validateFormData_collects_all_missing (Json.obj [("nom", Json.str "Bob")]) rfl
    (by decide)).1]
  rfl

end ApiClient
